import Mathlib

/-!
Verification of the AM2315 south plugin
(`python/foglamp/plugins/south/am2315/am2315.py`).

The development shallowly embeds the plugin's four entry points.
Machine integers are modelled as `Nat` (the Python ints involved are
non-negative throughout), Python float division by 10 is modelled as
exact division in `ℚ`, the I2C transport is an oracle record of the
three bus calls the poll makes, and the handle dictionaries of the
lifecycle functions are association lists.
-/

namespace AM2315

/-! ### CRC-16/MODBUS loop, am2315.py lines 136-144

The source initialises `calc_crc = 0xFFFF`, XORs each of the first six
response bytes in, and after each byte runs eight iterations of:
if the low bit is set, shift right and XOR with 0xA001, else shift right.
-/

/-- One iteration of the inner `for i in range(1,9)` loop. -/
def crcInner (acc : Nat) : Nat :=
  if acc &&& 1 = 1 then (acc >>> 1) ^^^ 0xA001 else acc >>> 1

/-- One iteration of the outer loop: XOR the byte in, then run the inner
loop eight times. -/
def crcByte (acc b : Nat) : Nat := crcInner^[8] (acc ^^^ b)

/-- The CRC loop starting from an arbitrary accumulator. -/
def crcFold (acc : Nat) (bytes : List Nat) : Nat := bytes.foldl crcByte acc

/-- `calc_crc` as computed by `plugin_poll` over `sensor_response[0:6]`. -/
def crc16 (bytes : List Nat) : Nat := crcFold 0xFFFF bytes

/-- The received checksum, am2315.py line 134:
`crc = sensor_response[7] * 256 + sensor_response[6]`. -/
def received_checksum (b6 b7 : Nat) : Nat := b7 * 256 + b6

/-! ### Models of the Python builtins used on lines 109 and 115 -/

/-- Value of a hexadecimal digit character, both cases accepted,
as in Python `int(_, 16)`. -/
def hexDigitVal (c : Char) : Option Nat :=
  if '0' ≤ c ∧ c ≤ '9' then some (c.toNat - 48)
  else if 'a' ≤ c ∧ c ≤ 'f' then some (c.toNat - 87)
  else if 'A' ≤ c ∧ c ≤ 'F' then some (c.toNat - 55)
  else none

/-- Accumulate hexadecimal digits left to right; any bad digit is a parse
failure. -/
def parseHex : List Char → Nat → Option Nat
  | [], acc => some acc
  | c :: rest, acc =>
    match hexDigitVal c with
    | some d => parseHex rest (acc * 16 + d)
    | none => none

/-- Model of Python `int(s, 16)`: an optional `0x`/`0X` prefix followed by
at least one hexadecimal digit; `none` models the `ValueError` raised on
any other input. -/
def pyIntHex (s : String) : Option Nat :=
  let cs := s.data
  let body :=
    match cs with
    | '0' :: x :: rest => if x = 'x' ∨ x = 'X' then rest else cs
    | _ => cs
  match body with
  | [] => none
  | _ => parseHex body 0

/-- Model of Python `hex(n)` for `n ≥ 0`: `0x` followed by lowercase
hexadecimal digits.  Note the result is a string, exactly as on line 109
of the source (`sensor_add = hex(int(i2c_address, 16))`). -/
def pyHex (n : Nat) : String := "0x" ++ String.mk (Nat.toDigits 16 n)

/-- Model of Python `str.replace(pat, rep)` on character lists: replace
every non-overlapping occurrence of `pat`, scanning left to right.  The
fuel argument (instantiated with the length of the string) makes the
recursion structural; every step consumes at least one character, so the
fuel never runs out before the string does. -/
def pyReplaceAux (pat rep : List Char) : Nat → List Char → List Char
  | 0, s => s
  | _ + 1, [] => []
  | fuel + 1, c :: rest =>
    if pat ≠ [] ∧ pat.isPrefixOf (c :: rest) then
      rep ++ pyReplaceAux pat rep fuel ((c :: rest).drop pat.length)
    else
      c :: pyReplaceAux pat rep fuel rest

/-- Model of Python `s.replace(pat, rep)` for a non-empty pattern. -/
def pyReplace (s pat rep : String) : String :=
  String.mk (pyReplaceAux pat.data rep.data s.data.length s.data)

/-! ### The poll cycle, am2315.py lines 93-161 -/

/-- Python exceptions that can arise inside `plugin_poll`. -/
inductive PyErr where
  | busErr (msg : String)
  | valueError
  | indexError
deriving DecidableEq

/-- The outcome of `plugin_poll` at the caller's boundary: either the
wrapped `DataRetrievalError` raised by the catch-all handler on
lines 158-160, or an exception that escapes unwrapped because it is
raised before the `try` block begins. -/
inductive PollErr where
  | dataRetrieval (cause : PyErr)
  | uncaught (e : PyErr)
deriving DecidableEq

/-- The reading dictionary assembled on lines 148-156, with the
`readings` sub-dictionary flattened into its two entries.  `timestamp`
and `key` are produced by external collaborators
(`utils.local_timestamp()` and `uuid.uuid4()`) and enter the model as
parameters of `plugin_poll`. -/
structure Reading where
  asset : String
  timestamp : String
  key : String
  temperature : ℚ
  humidity : ℚ
deriving DecidableEq

/-- Oracle for the three bus transfers one poll performs, in order: the
wake-up write (line 119), the data-request write (line 124) and the
8-byte block read (line 126).  The two writes are distinct fields because
the physical sensor is stateful: the wake-up call may fail while the
identical retry succeeds.  The address parameter is a `String` because
the source hands `hex(int(i2c_address, 16))` — a Python `str` — to the
transport. -/
structure BusModel where
  wakeWrite : String → Nat → List Nat → Except PyErr Unit
  dataWrite : String → Nat → List Nat → Except PyErr Unit
  readBlock : String → Nat → Nat → Except PyErr (List Nat)

/-- The fields of the session handle that `plugin_poll` reads:
`handle["bus"]`, `handle['assetName']['value']` and
`handle['i2cAddress']['value']`. -/
structure Handle where
  bus : BusModel
  assetName : String
  i2cAddress : String

/-- Python list indexing `sensor_response[i]`: out of range raises
`IndexError`. -/
def idx : List Nat → Nat → Except PyErr Nat
  | [], _ => .error .indexError
  | b :: _, 0 => .ok b
  | _ :: rest, i + 1 => idx rest i

/-- Python `bytearray(xs)` on line 126: raises `ValueError` unless every
element is a byte (the elements are non-negative by the `Nat` modelling).
-/
def toBytearray (raw : List Nat) : Except PyErr (List Nat) :=
  match raw.all fun b => decide (b < 256) with
  | true => .ok raw
  | false => .error .valueError

/-- Decode-and-assemble steps of the `try` block, am2315.py
lines 127-156: index into the response, form the two readings and the
received checksum, run the checksum comparison (whose outcome the source
discards), and build the reading record. -/
def decodePart (sensor_response : List Nat) (asset_name time_stamp key : String) :
    Except PyErr Reading :=
  match idx sensor_response 4 with
  | .error e => .error e
  | .ok b4 =>
  match idx sensor_response 5 with
  | .error e => .error e
  | .ok b5 =>
  let temperature : ℚ := (b4 * 256 + b5) / 10
  match idx sensor_response 2 with
  | .error e => .error e
  | .ok b2 =>
  match idx sensor_response 3 with
  | .error e => .error e
  | .ok b3 =>
  let humidity : ℚ := (b2 * 256 + b3) / 10
  match idx sensor_response 7 with
  | .error e => .error e
  | .ok b7 =>
  match idx sensor_response 6 with
  | .error e => .error e
  | .ok b6 =>
  let crc := received_checksum b6 b7
  let calc_crc := crc16 (sensor_response.take 6)
  -- lines 145-146: `if calc_crc != crc: pass` — the comparison is made
  -- and its outcome discarded.
  let _check := if calc_crc ≠ crc then () else ()
  .ok { asset := asset_name, timestamp := time_stamp, key := key,
        temperature := temperature, humidity := humidity }

/-- Body of the `try` block, am2315.py lines 117-156.  The wake-up write
result is bound and discarded: the inner `try/except ... pass` on
lines 118-122 swallows its failure unconditionally.  Every other
exception value propagates to the caller, which wraps it. -/
def pollBody (bus : BusModel) (sensor_add asset_name time_stamp key : String) :
    Except PyErr Reading :=
  let _wake := bus.wakeWrite sensor_add 3 [0, 4]
  match bus.dataWrite sensor_add 3 [0, 4] with
  | .error e => .error e
  | .ok _ =>
  match bus.readBlock sensor_add 3 8 with
  | .error e => .error e
  | .ok raw =>
  match toBytearray raw with
  | .error e => .error e
  | .ok sensor_response => decodePart sensor_response asset_name time_stamp key

/-- `plugin_poll`, am2315.py lines 93-161, as explicit state passing: the
second component is the handle as left behind by the call (the source
never assigns into it).  Lines 106-115 run before the `try` block, so a
`ValueError` from `int(i2c_address, 16)` escapes unwrapped; everything
raised inside `pollBody` is re-raised as `DataRetrievalError` carrying
the original exception (lines 158-160). -/
def plugin_poll (handle : Handle) (time_stamp key : String) :
    Except PollErr Reading × Handle :=
  let bus := handle.bus
  let i2c_address := handle.i2cAddress
  match pyIntHex i2c_address with
  | none => (.error (.uncaught .valueError), handle)
  | some v =>
    let sensor_add := pyHex v
    let asset_name := pyReplace handle.assetName "%M" i2c_address
    match pollBody bus sensor_add asset_name time_stamp key with
    | .ok d => (.ok d, handle)
    | .error ex => (.error (.dataRetrieval ex), handle)

/-- Transport oracle on which every transfer succeeds and the block read
returns `resp`. -/
def pureBus (resp : List Nat) : BusModel where
  wakeWrite := fun _ _ _ => .ok ()
  dataWrite := fun _ _ _ => .ok ()
  readBlock := fun _ _ _ => .ok resp

/-- Transport oracle that records, in its error value, the address the
engine handed to the data-request write. -/
def busProbe : BusModel where
  wakeWrite := fun _ _ _ => .ok ()
  dataWrite := fun addr _ _ => .error (.busErr addr)
  readBlock := fun addr _ _ => .error (.busErr addr)

instance {ε α : Type} [DecidableEq ε] [DecidableEq α] :
    DecidableEq (Except ε α) := fun a b =>
  match a, b with
  | .ok x, .ok y =>
    if h : x = y then .isTrue (by rw [h]) else
      .isFalse (by intro hc; cases hc; exact h rfl)
  | .error x, .error y =>
    if h : x = y then .isTrue (by rw [h]) else
      .isFalse (by intro hc; cases hc; exact h rfl)
  | .ok _, .error _ => .isFalse (by intro hc; cases hc)
  | .error _, .ok _ => .isFalse (by intro hc; cases hc)

/-! ### Lifecycle entry points, am2315.py lines 77-90 and 164-191

`plugin_init`, `plugin_reconfigure` and `plugin_shutdown` manipulate
Python dictionaries.  They are modelled over association lists of
`PyVal` values; `copy.deepcopy` is the identity of the pure model (its
whole point — severing aliasing — is inherent in value semantics), and
an open `smbus.SMBus` transport object is the value `PyVal.bus true`. -/

/-- Values stored in a configuration / handle dictionary. -/
inductive PyVal where
  | str (s : String)
  | num (n : Nat)
  | dict (entries : List (String × PyVal))
  | bus (isOpen : Bool)

/-- Dictionary lookup `d[k]`, as an option. -/
def dictGet? {α : Type} : List (String × α) → String → Option α
  | [], _ => none
  | (k', v) :: rest, k => if k' = k then some v else dictGet? rest k

/-- Dictionary assignment `d[k] = v`: overwrite the binding in place when
the key is present, append it otherwise — Python dict semantics. -/
def dictSet {α : Type} : List (String × α) → String → α → List (String × α)
  | [], k, v => [(k, v)]
  | (k', v') :: rest, k, v =>
    if k' = k then (k, v) :: rest else (k', v') :: dictSet rest k v

/-- `plugin_init`, am2315.py lines 77-90: deep-copy the configuration,
open one transport (`smbus.SMBus(1)`), store it under key `bus`, return
the result. -/
def plugin_init (config : List (String × PyVal)) : List (String × PyVal) :=
  dictSet config "bus" (.bus true)

/-- `plugin_reconfigure`, am2315.py lines 164-180: deep-copy `new_config`,
set `restart` to `no`, return it.  The old handle is only logged. -/
def plugin_reconfigure (_handle new_config : List (String × PyVal)) :
    List (String × PyVal) :=
  dictSet new_config "restart" (.str "no")

/-- `plugin_shutdown`, am2315.py lines 183-191: the body is a single log
statement.  It returns `None` and leaves the handle exactly as it was. -/
def plugin_shutdown (handle : List (String × PyVal)) :
    Option PyVal × List (String × PyVal) :=
  (none, handle)

/-- Discriminator for the wrapped-error boundary: does a poll outcome
carry the `DataRetrievalError` kind? -/
def isDataRetrieval : Except PollErr Reading → Bool
  | .error (.dataRetrieval _) => true
  | _ => false

/-! ## Lemmas about the dictionary model -/

theorem dictGet?_dictSet_self {α : Type} (d : List (String × α)) (k : String) (v : α) :
    dictGet? (dictSet d k v) k = some v := by
  induction d with
  | nil => simp [dictSet, dictGet?]
  | cons p rest ih =>
    obtain ⟨k', v'⟩ := p
    by_cases h : k' = k
    · simp [dictSet, dictGet?, h]
    · simp [dictSet, dictGet?, h, ih]

theorem dictGet?_dictSet_ne {α : Type} (d : List (String × α)) (k k' : String) (v : α)
    (h : k' ≠ k) : dictGet? (dictSet d k v) k' = dictGet? d k' := by
  have hkk : ¬ k = k' := fun hh => h hh.symm
  induction d with
  | nil =>
    simp [dictSet, dictGet?, hkk]
  | cons p rest ih =>
    obtain ⟨a, b⟩ := p
    by_cases ha : a = k
    · simp [dictSet, dictGet?, ha, hkk]
    · simp [dictSet, dictGet?, ha, ih]

/-! ## Lemmas about the CRC loop

The loop body is GF(2)-linear in the accumulator/byte stream: each step
commutes with XOR.  Consequently the XOR-difference of the CRCs of two
equal-length messages depends only on the XOR-difference of the
messages, which reduces the single-bit error-detection property to 48
concrete computations. -/

theorem xor_mix (a b x y : Nat) :
    (a ^^^ x) ^^^ (b ^^^ y) = (a ^^^ b) ^^^ (x ^^^ y) := by
  rw [Nat.xor_assoc, Nat.xor_assoc]
  congr 1
  rw [← Nat.xor_assoc, Nat.xor_comm x b, Nat.xor_assoc]

theorem crcInner_xor (a b : Nat) :
    crcInner (a ^^^ b) = crcInner a ^^^ crcInner b := by
  have hs : (a ^^^ b) >>> 1 = a >>> 1 ^^^ b >>> 1 := by
    apply Nat.eq_of_testBit_eq
    intro i
    simp
  have hand : (a ^^^ b) &&& 1 = (a &&& 1) ^^^ (b &&& 1) := Nat.and_xor_distrib_right
  have hlc : ∀ x y z : Nat, x ^^^ (y ^^^ z) = y ^^^ (x ^^^ z) := fun x y z => by
    rw [← Nat.xor_assoc, Nat.xor_comm x y, Nat.xor_assoc]
  have ha : a &&& 1 = 0 ∨ a &&& 1 = 1 := by rw [Nat.and_one_is_mod]; omega
  have hb : b &&& 1 = 0 ∨ b &&& 1 = 1 := by rw [Nat.and_one_is_mod]; omega
  unfold crcInner
  rcases ha with ha | ha <;> rcases hb with hb | hb <;>
    simp [hand, ha, hb, hs, Nat.xor_assoc, Nat.xor_comm, hlc]

theorem crcInner_iterate_xor (n a b : Nat) :
    crcInner^[n] (a ^^^ b) = crcInner^[n] a ^^^ crcInner^[n] b := by
  induction n generalizing a b with
  | zero => rfl
  | succ n ih =>
    rw [Function.iterate_succ_apply, Function.iterate_succ_apply,
      Function.iterate_succ_apply, crcInner_xor]
    exact ih _ _

theorem crcByte_xor (a b x y : Nat) :
    crcByte (a ^^^ b) (x ^^^ y) = crcByte a x ^^^ crcByte b y := by
  unfold crcByte
  rw [← xor_mix, crcInner_iterate_xor]

theorem crcFold_xor : ∀ (xs ys : List Nat), xs.length = ys.length → ∀ a b : Nat,
    crcFold a xs ^^^ crcFold b ys =
      crcFold (a ^^^ b) (List.zipWith (· ^^^ ·) xs ys) := by
  intro xs
  induction xs with
  | nil =>
    intro ys h a b
    cases ys with
    | nil => simp [crcFold]
    | cons y ys => simp at h
  | cons x xs ih =>
    intro ys h a b
    cases ys with
    | nil => simp at h
    | cons y ys =>
      have h' : xs.length = ys.length := by simpa using h
      show crcFold (crcByte a x) xs ^^^ crcFold (crcByte b y) ys =
        crcFold (crcByte (a ^^^ b) (x ^^^ y)) (List.zipWith (· ^^^ ·) xs ys)
      rw [crcByte_xor]
      exact ih ys h' _ _

theorem zipWith_xor_self (xs : List Nat) :
    List.zipWith (· ^^^ ·) xs xs = List.replicate xs.length 0 := by
  induction xs with
  | nil => rfl
  | cons x xs ih => simp [List.replicate_succ, ih]

theorem zipWith_xor_set : ∀ (xs : List Nat) (j v : Nat), j < xs.length →
    List.zipWith (· ^^^ ·) xs (xs.set j v) =
      (List.replicate xs.length 0).set j (xs.getD j 0 ^^^ v) := by
  intro xs
  induction xs with
  | nil => intro j v h; simp at h
  | cons x xs ih =>
    intro j v h
    cases j with
    | zero =>
      simp [List.set, zipWith_xor_self, List.replicate_succ]
    | succ j =>
      have h' : j < xs.length := by simpa using h
      simp [List.set, List.replicate_succ, ih j v h']

set_option maxRecDepth 8000 in
theorem crcFold_single_bit : ∀ j, j < 6 → ∀ k, k < 8 →
    crcFold 0 ((List.replicate 6 0).set j (2 ^ k)) ≠ 0 := by decide

theorem crc16_flip (msg : List Nat) (hlen : msg.length = 6) (j k : Nat)
    (hj : j < 6) (hk : k < 8) :
    crc16 msg ≠ crc16 (msg.set j (msg.getD j 0 ^^^ 2 ^ k)) := by
  intro heq
  have hlen2 : msg.length = (msg.set j (msg.getD j 0 ^^^ 2 ^ k)).length := by simp
  have hx := crcFold_xor msg (msg.set j (msg.getD j 0 ^^^ 2 ^ k)) hlen2 0xFFFF 0xFFFF
  have hz : List.zipWith (· ^^^ ·) msg (msg.set j (msg.getD j 0 ^^^ 2 ^ k)) =
      (List.replicate 6 0).set j (2 ^ k) := by
    rw [zipWith_xor_set msg j _ (hlen ▸ hj), hlen, ← Nat.xor_assoc, Nat.xor_self,
      Nat.zero_xor]
  rw [hz, Nat.xor_self] at hx
  have h0 : crc16 msg ^^^ crc16 (msg.set j (msg.getD j 0 ^^^ 2 ^ k)) =
      crcFold 0 ((List.replicate 6 0).set j (2 ^ k)) := hx
  rw [heq, Nat.xor_self] at h0
  exact crcFold_single_bit j hj k hk h0.symm

/-! ## Claim theorems -/

/-- C2: the checksum loop of `plugin_poll` is CRC-16/MODBUS over the
first six response bytes: it maps the spec's test message
`[0x03, 0x04, 0x01, 0x02, 0x01, 0x08]` to the fixed 16-bit value 0x8251,
it maps the ASCII bytes of `123456789` to 0x4B37 — the published
CRC-16/MODBUS check value, pinning the algorithm to the reference
definition — the received checksum it is compared against takes byte 6
as low order and byte 7 as high order, and flipping any single bit of a
six-byte message changes the computed value. -/
theorem am2315_crc16_spec :
    crc16 [0x03, 0x04, 0x01, 0x02, 0x01, 0x08] = 0x8251 ∧
    crc16 [0x31, 0x32, 0x33, 0x34, 0x35, 0x36, 0x37, 0x38, 0x39] = 0x4B37 ∧
    (received_checksum 1 0 = 1 ∧ received_checksum 0 1 = 256 ∧
      ∀ b6 b7, received_checksum b6 b7 = b7 * 256 + b6) ∧
    (∀ msg : List Nat, msg.length = 6 → ∀ j k : Nat, j < 6 → k < 8 →
      crc16 msg ≠ crc16 (msg.set j (msg.getD j 0 ^^^ 2 ^ k))) := by
  refine ⟨?_, ?_, ⟨rfl, rfl, fun _ _ => rfl⟩, crc16_flip⟩
  · set_option maxRecDepth 4000 in decide
  · set_option maxRecDepth 4000 in decide

/-- C2 witness: the error-detection conjunct applied to the spec's test
message with its lowest-order bit flipped. -/
theorem am2315_crc16_spec_witness :
    crc16 [0x03, 0x04, 0x01, 0x02, 0x01, 0x08] ≠
      crc16 ([0x03, 0x04, 0x01, 0x02, 0x01, 0x08].set 0
        ([0x03, 0x04, 0x01, 0x02, 0x01, 0x08].getD 0 0 ^^^ 2 ^ 0)) :=
  am2315_crc16_spec.2.2.2 [0x03, 0x04, 0x01, 0x02, 0x01, 0x08] rfl 0 0
    (by decide) (by decide)

/-- C1: for every 8-byte raw response, `plugin_poll` decodes the reading
deterministically as a pure function of the bytes: on a transport
delivering bytes `b0..b7`, the returned reading has
humidity `(b2 * 256 + b3) / 10` and temperature `(b4 * 256 + b5) / 10`,
exact to one tenth. -/
theorem am2315_decode_pure (assetName i2cAddress ts key : String) (n : Nat)
    (haddr : pyIntHex i2cAddress = some n)
    (b0 b1 b2 b3 b4 b5 b6 b7 : Nat)
    (hb : ([b0, b1, b2, b3, b4, b5, b6, b7].all fun b => decide (b < 256)) = true) :
    (plugin_poll ⟨pureBus [b0, b1, b2, b3, b4, b5, b6, b7], assetName, i2cAddress⟩
        ts key).1 =
      .ok { asset := pyReplace assetName "%M" i2cAddress, timestamp := ts, key := key,
            temperature := ((b4 : ℚ) * 256 + (b5 : ℚ)) / 10,
            humidity := ((b2 : ℚ) * 256 + (b3 : ℚ)) / 10 } := by
  simp only [plugin_poll, haddr, pollBody, decodePart, pureBus, toBytearray, hb, idx]

/-- C1 witness: a concrete response decodes to 26.4 degrees and
25.8 percent. -/
theorem am2315_decode_pure_witness :
    (plugin_poll ⟨pureBus [3, 4, 1, 2, 1, 8, 0, 0], "am2315/%M/", "0x5C"⟩
        "t" "k").1 =
      .ok { asset := pyReplace "am2315/%M/" "%M" "0x5C", timestamp := "t", key := "k",
            temperature := (((1 : ℕ) : ℚ) * 256 + ((8 : ℕ) : ℚ)) / 10,
            humidity := (((1 : ℕ) : ℚ) * 256 + ((2 : ℕ) : ℚ)) / 10 } :=
  am2315_decode_pure "am2315/%M/" "0x5C" "t" "k" 92 rfl 3 4 1 2 1 8 0 0 (by decide)

/-- C3: a checksum mismatch does not gate acceptance: for every 8-byte
response whose computed CRC differs from the received checksum,
`plugin_poll` still returns the assembled reading, with no error raised
and no trace of the mismatch in the result. -/
theorem am2315_crc_mismatch_not_gating (assetName i2cAddress ts key : String)
    (n : Nat) (haddr : pyIntHex i2cAddress = some n)
    (b0 b1 b2 b3 b4 b5 b6 b7 : Nat)
    (hb : ([b0, b1, b2, b3, b4, b5, b6, b7].all fun b => decide (b < 256)) = true)
    (_hmis : crc16 [b0, b1, b2, b3, b4, b5] ≠ received_checksum b6 b7) :
    (plugin_poll ⟨pureBus [b0, b1, b2, b3, b4, b5, b6, b7], assetName, i2cAddress⟩
        ts key).1 =
      .ok { asset := pyReplace assetName "%M" i2cAddress, timestamp := ts, key := key,
            temperature := ((b4 : ℚ) * 256 + (b5 : ℚ)) / 10,
            humidity := ((b2 : ℚ) * 256 + (b3 : ℚ)) / 10 } := by
  simp only [plugin_poll, haddr, pollBody, decodePart, pureBus, toBytearray, hb, idx]

set_option maxRecDepth 4000 in
/-- C3 witness: the concrete response `[3, 4, 1, 2, 1, 8, 0, 0]` carries
received checksum 0 while the computed CRC is 0x8251 — a mismatch — and
the poll still returns the decoded reading. -/
theorem am2315_crc_mismatch_not_gating_witness :
    (plugin_poll ⟨pureBus [3, 4, 1, 2, 1, 8, 0, 0], "am2315/%M/", "0x5C"⟩
        "t" "k").1 =
      .ok { asset := pyReplace "am2315/%M/" "%M" "0x5C", timestamp := "t", key := "k",
            temperature := (((1 : ℕ) : ℚ) * 256 + ((8 : ℕ) : ℚ)) / 10,
            humidity := (((1 : ℕ) : ℚ) * 256 + ((2 : ℕ) : ℚ)) / 10 } :=
  am2315_crc_mismatch_not_gating "am2315/%M/" "0x5C" "t" "k" 92 rfl 3 4 1 2 1 8 0 0
    (by decide) (by decide)

/-- C10: `plugin_poll` never mutates the handle: whatever the transport
does and however the call ends, the handle state after the call is the
handle that went in. -/
theorem am2315_poll_preserves_handle (h : Handle) (ts key : String) :
    (plugin_poll h ts key).2 = h := by
  cases hx : pyIntHex h.i2cAddress with
  | none => simp [plugin_poll, hx]
  | some v =>
    cases hb : pollBody h.bus (pyHex v) (pyReplace h.assetName "%M" h.i2cAddress) ts key <;>
      simp [plugin_poll, hx, hb]

/-- C4 counterexample: an exception raised in step 1 — computing the
device address — is NOT re-raised as `DataRetrievalError`: with the
unparsable configured address `zz`, the `ValueError` from
`int(i2c_address, 16)` escapes unwrapped, because line 109 runs before
the `try` block begins. -/
theorem am2315_step1_not_wrapped :
    (plugin_poll ⟨pureBus [], "am2315/%M/", "zz"⟩ "t" "k").1 =
      .error (.uncaught .valueError) ∧
    isDataRetrieval (plugin_poll ⟨pureBus [], "am2315/%M/", "zz"⟩ "t" "k").1 = false :=
  ⟨rfl, rfl⟩

/-- A response shorter than 8 bytes makes the decode step raise
`IndexError`. -/
theorem decodePart_short (raw : List Nat) (hlen : raw.length < 8)
    (a t k : String) : decodePart raw a t k = .error .indexError := by
  rcases raw with _ | ⟨x0, _ | ⟨x1, _ | ⟨x2, _ | ⟨x3, _ | ⟨x4, _ | ⟨x5, _ | ⟨x6, _ | ⟨x7, rest⟩⟩⟩⟩⟩⟩⟩⟩ <;>
    first
      | rfl
      | (exfalso; simp at hlen; omega)

/-- C4 amended: the wake-up write failure is swallowed unconditionally
and never affects the poll outcome; an exception raised inside the `try`
block — data-request write, 8-byte read, or decoding — is re-raised as a
single `DataRetrievalError` carrying the original cause, and in
particular a transport failure on the data-request write always yields
`DataRetrievalError`, never a silent absent reading.  But the
device-address computation (and the asset-name substitution beside it)
runs before the handler, so its failure escapes unwrapped rather than as
`DataRetrievalError`. -/
theorem am2315_error_paths :
    (∀ (bus : BusModel) (w : String → Nat → List Nat → Except PyErr Unit)
        (a i ts key : String),
        (plugin_poll ⟨{ bus with wakeWrite := w }, a, i⟩ ts key).1 =
          (plugin_poll ⟨bus, a, i⟩ ts key).1) ∧
    (∀ (bus : BusModel) (a i ts key : String), pyIntHex i = none →
        (plugin_poll ⟨bus, a, i⟩ ts key).1 = .error (.uncaught .valueError)) ∧
    (∀ (bus : BusModel) (a i ts key : String) (n : Nat) (e : PyErr),
        pyIntHex i = some n →
        bus.dataWrite (pyHex n) 3 [0, 4] = .error e →
        (plugin_poll ⟨bus, a, i⟩ ts key).1 = .error (.dataRetrieval e)) ∧
    (∀ (bus : BusModel) (a i ts key : String) (n : Nat) (e : PyErr),
        pyIntHex i = some n →
        bus.dataWrite (pyHex n) 3 [0, 4] = .ok () →
        bus.readBlock (pyHex n) 3 8 = .error e →
        (plugin_poll ⟨bus, a, i⟩ ts key).1 = .error (.dataRetrieval e)) ∧
    (∀ (bus : BusModel) (a i ts key : String) (n : Nat) (raw : List Nat),
        pyIntHex i = some n →
        bus.dataWrite (pyHex n) 3 [0, 4] = .ok () →
        bus.readBlock (pyHex n) 3 8 = .ok raw →
        raw.length < 8 → (raw.all fun b => decide (b < 256)) = true →
        (plugin_poll ⟨bus, a, i⟩ ts key).1 = .error (.dataRetrieval .indexError)) ∧
    (∀ (bus : BusModel) (a i ts key : String) (n : Nat) (raw : List Nat),
        pyIntHex i = some n →
        bus.dataWrite (pyHex n) 3 [0, 4] = .ok () →
        bus.readBlock (pyHex n) 3 8 = .ok raw →
        (raw.all fun b => decide (b < 256)) = false →
        (plugin_poll ⟨bus, a, i⟩ ts key).1 = .error (.dataRetrieval .valueError)) := by
  refine ⟨?_, ?_, ?_, ?_, ?_, ?_⟩
  · intro bus w a i ts key
    cases hx : pyIntHex i with
    | none => simp [plugin_poll, hx]
    | some v =>
      have hcong : pollBody { bus with wakeWrite := w } (pyHex v)
          (pyReplace a "%M" i) ts key
          = pollBody bus (pyHex v) (pyReplace a "%M" i) ts key := rfl
      cases hb : pollBody bus (pyHex v) (pyReplace a "%M" i) ts key <;>
        simp [plugin_poll, hx, hcong, hb]
  · intro bus a i ts key h
    simp [plugin_poll, h]
  · intro bus a i ts key n e h1 h2
    simp [plugin_poll, h1, pollBody, h2]
  · intro bus a i ts key n e h1 h2 h3
    simp [plugin_poll, h1, pollBody, h2, h3]
  · intro bus a i ts key n raw h1 h2 h3 hlen hall
    simp [plugin_poll, h1, pollBody, h2, h3, toBytearray, hall,
      decodePart_short raw hlen]
  · intro bus a i ts key n raw h1 h2 h3 hall
    simp [plugin_poll, h1, pollBody, h2, h3, toBytearray, hall]

/-- C4 witness: a transport on which the wake-up write fails and the
data-request write fails with a bus error yields exactly the wrapped
`DataRetrievalError` carrying that cause. -/
theorem am2315_error_paths_witness :
    (plugin_poll ⟨⟨fun _ _ _ => .error (.busErr "wake"),
                   fun _ _ _ => .error (.busErr "boom"),
                   fun _ _ _ => .ok []⟩, "am2315/%M/", "0x5C"⟩ "t" "k").1 =
      .error (.dataRetrieval (.busErr "boom")) :=
  am2315_error_paths.2.2.1
    ⟨fun _ _ _ => .error (.busErr "wake"),
     fun _ _ _ => .error (.busErr "boom"),
     fun _ _ _ => .ok []⟩
    "am2315/%M/" "0x5C" "t" "k" 92 (.busErr "boom") rfl rfl

/-- C5 counterexample: with template `am2315/%M/` and configured address
`0x5C`, the reading's asset field is `am2315/0x5C/` — the configured
string verbatim, upper-case `C` kept — not the canonical lower-case form
`am2315/0x5c/` the claim requires. -/
theorem am2315_asset_not_canonical :
    ((plugin_poll ⟨pureBus [3, 4, 1, 2, 1, 8, 0, 0], "am2315/%M/", "0x5C"⟩
        "t" "k").1.map Reading.asset = .ok "am2315/0x5C/") ∧
    ("am2315/0x5C/" : String) ≠ "am2315/0x5c/" :=
  ⟨rfl, by decide⟩

/-- C5 amended: the asset name is built by substituting the literal token
`%M` in the configured template with the configured address string
verbatim (case preserved, not canonicalised): template `am2315/%M/` with
address `0x5C` yields `am2315/0x5C/`, with exactly one substitution and
no partial matches on other `%`-sequences. -/
theorem am2315_asset_substitution :
    ((plugin_poll ⟨pureBus [3, 4, 1, 2, 1, 8, 0, 0], "am2315/%M/", "0x5C"⟩
        "t" "k").1.map Reading.asset = .ok "am2315/0x5C/") ∧
    pyReplace "am2315/%M/" "%M" "0x5C" = "am2315/0x5C/" ∧
    pyReplace "am2315/%N/" "%M" "0x5C" = "am2315/%N/" :=
  ⟨rfl, by decide, by decide⟩

/-- C6: the address handed to the transport's block write and block read
is NOT a numeric identifier: line 109 computes
`sensor_add = hex(int(i2c_address, 16))`, whose value for the default
configured address `0x5C` is the four-character string `0x5c` (while the
one-byte numeric identifier would be 92 = 0x5C).  The probing transport
records that it received exactly that string. -/
theorem am2315_sensor_add_is_string :
    pyIntHex "0x5C" = some 92 ∧
    pyHex 92 = "0x5c" ∧
    (plugin_poll ⟨busProbe, "am2315/%M/", "0x5C"⟩ "t" "k").1 =
      .error (.dataRetrieval (.busErr "0x5c")) :=
  ⟨rfl, rfl, rfl⟩

/-- C7: `plugin_reconfigure` returns a deep copy of `new_config` with
`restart` set to `no`, wholesale: the `restart` key is always present
with value `no`, every other key is answered exactly as by `new_config`
(so keys present only in the old handle — the open transport included —
are absent), and the old handle plays no part in the result. -/
theorem am2315_reconfigure_wholesale :
    (∀ h n, dictGet? (plugin_reconfigure h n) "restart" = some (.str "no")) ∧
    (∀ h n k, k ≠ "restart" →
      dictGet? (plugin_reconfigure h n) k = dictGet? n k) ∧
    (∀ h n k, k ≠ "restart" → dictGet? n k = none →
      dictGet? (plugin_reconfigure h n) k = none) ∧
    (∀ h h' n, plugin_reconfigure h n = plugin_reconfigure h' n) := by
  refine ⟨fun h n => dictGet?_dictSet_self n "restart" (.str "no"),
          fun h n k hk => dictGet?_dictSet_ne n "restart" k (.str "no") hk,
          fun h n k hk hnone => ?_, fun _ _ _ => rfl⟩
  rw [plugin_reconfigure, dictGet?_dictSet_ne n "restart" k (.str "no") hk, hnone]

/-- C7 witness: a transport stored in the old handle is gone from the
reconfigured handle, and the restart marker is present. -/
theorem am2315_reconfigure_wholesale_witness :
    dictGet? (plugin_reconfigure [("bus", PyVal.bus true)]
      [("plugin", PyVal.str "am2315")]) "bus" = none ∧
    dictGet? (plugin_reconfigure [("bus", PyVal.bus true)]
      [("plugin", PyVal.str "am2315")]) "restart" = some (.str "no") :=
  ⟨am2315_reconfigure_wholesale.2.2.1 [("bus", PyVal.bus true)]
      [("plugin", PyVal.str "am2315")] "bus" (by decide) rfl,
   am2315_reconfigure_wholesale.1 [("bus", PyVal.bus true)]
      [("plugin", PyVal.str "am2315")]⟩

/-- C8: `plugin_init` returns the (deep-copied) configuration with one
newly opened transport stored under `bus`: the transport is present and
open, and every configuration key is answered exactly as by the input
configuration. -/
theorem am2315_init_handle :
    (∀ config, dictGet? (plugin_init config) "bus" = some (.bus true)) ∧
    (∀ config k, k ≠ "bus" →
      dictGet? (plugin_init config) k = dictGet? config k) :=
  ⟨fun config => dictGet?_dictSet_self config "bus" (.bus true),
   fun config k hk => dictGet?_dictSet_ne config "bus" k (.bus true) hk⟩

/-- C8 witness: on the default configuration the handle keeps the
configured address and carries the open transport. -/
theorem am2315_init_handle_witness :
    dictGet? (plugin_init [("i2cAddress", PyVal.dict [("value", PyVal.str "0x5C")])])
        "i2cAddress" = some (PyVal.dict [("value", PyVal.str "0x5C")]) ∧
    dictGet? (plugin_init [("i2cAddress", PyVal.dict [("value", PyVal.str "0x5C")])])
        "bus" = some (.bus true) :=
  ⟨am2315_init_handle.2 [("i2cAddress", PyVal.dict [("value", PyVal.str "0x5C")])]
      "i2cAddress" (by decide),
   am2315_init_handle.1 [("i2cAddress", PyVal.dict [("value", PyVal.str "0x5C")])]⟩

/-- C9 counterexample: `plugin_shutdown` does not release the transport.
On a handle holding an open transport, the transport is still open — not
released — after the call, refuting the release half of the claim. -/
theorem am2315_shutdown_no_release :
    dictGet? (plugin_shutdown [("bus", PyVal.bus true)]).2 "bus" = some (PyVal.bus true) ∧
    ¬ dictGet? (plugin_shutdown [("bus", PyVal.bus true)]).2 "bus" = some (PyVal.bus false) := by
  constructor
  · rfl
  · intro hc
    simp [plugin_shutdown, dictGet?] at hc

/-- C9 amended: `plugin_shutdown` returns no value and performs no state
mutation at all — every field of the handle, the transport included, is
exactly as before; in particular no release of the transport happens. -/
theorem am2315_shutdown_noop (handle : List (String × PyVal)) :
    (plugin_shutdown handle).1 = none ∧
    (∀ k, dictGet? (plugin_shutdown handle).2 k = dictGet? handle k) :=
  ⟨rfl, fun _ => rfl⟩

end AM2315
